import Mathlib

/-!
Shallow embedding of the lavadero order-lifecycle / loyalty-ledger core:
the pure calculation utilities, the customer-stats mutations performed by
the onOrderCreate / onOrderComplete / onOrderCancel triggers, and the
transition guards those triggers use. Machine numbers are modelled as `Int`
(JS numbers are integral in all code paths here); the JS remainder operator
is `Int.tmod` (truncated toward zero); timestamps are opaque `Int` values
passed in as `now`.
-/

namespace Lavadero

/-- Customer statistics block (`users/{id}.stats`). -/
structure Stats where
  totalOrders : Int
  completedOrders : Int
  cancelledOrders : Int
  freeWashesAvailable : Int
  lastVisit : Int
deriving Repr, DecidableEq

/-- A customer document: the stats block plus the top-level `updatedAt` stamp. -/
structure UserDoc where
  stats : Stats
  updatedAt : Int
deriving Repr, DecidableEq

/-- `shouldGetFreeWash` from `utils/calculations`: a falsy (`0`) or nonpositive
threshold is never eligible; otherwise eligible iff the completed count is
positive and its JS remainder by the threshold is zero. -/
def shouldGetFreeWash (completedOrders washesRequired : Int) : Bool :=
  if washesRequired = 0 ∨ washesRequired ≤ 0 then false
  else decide (completedOrders > 0) && decide (Int.tmod completedOrders washesRequired = 0)

/-- The completion trigger reads `settings.promotions?.washesRequiredForFree || 6`:
an absent or zero (falsy) configured value falls back to the default 6. -/
def effectiveWashesRequired (configured : Option Int) : Int :=
  match configured with
  | none => 6
  | some w => if w = 0 then 6 else w

/-- Body of the `onOrderComplete` transaction over an existing user document:
when the order is not a redemption, bump `completedOrders` and test eligibility
at the new count; when it is a redemption, leave the counters alone. `lastVisit`
and `updatedAt` are always refreshed. Returns the updated document and the
`earnedFreeWash` flag. -/
def onOrderCompleteTxn (washesRequired now : Int) (paymentMethod : String)
    (u : UserDoc) : UserDoc × Bool :=
  let isRedeemingFreeWash := paymentMethod == "redeemed"
  let currentCompleted := u.stats.completedOrders
  let newCompleted := if isRedeemingFreeWash then currentCompleted else currentCompleted + 1
  let earnedFreeWash :=
    if isRedeemingFreeWash then false else shouldGetFreeWash newCompleted washesRequired
  ({ stats :=
      { u.stats with
        lastVisit := now
        completedOrders :=
          if isRedeemingFreeWash then u.stats.completedOrders else u.stats.completedOrders + 1
        freeWashesAvailable :=
          if earnedFreeWash then u.stats.freeWashesAvailable + 1
          else u.stats.freeWashesAvailable }
     updatedAt := now },
   earnedFreeWash)

/-- An order document, with the fields the completion trigger reads and the
error annotation it may write. -/
structure OrderDoc where
  status : String
  paymentMethod : String
  isFreeWash : Bool
  userId : String
  completionError : Option String
  completionErrorAt : Option Int
deriving Repr, DecidableEq

/-- The transaction including the existence check: a missing user document
makes the whole transaction abort with an error and no delta applied. -/
def completeTxnResult (userId : String) (washesRequired now : Int) (paymentMethod : String)
    (user : Option UserDoc) : Except String (UserDoc × Bool) :=
  match user with
  | none => Except.error ("Usuario " ++ userId ++ " no encontrado")
  | some u => Except.ok (onOrderCompleteTxn washesRequired now paymentMethod u)

/-- The `onOrderComplete` trigger: the transition-edge guard, then the
transaction; a transaction error is caught and recorded on the order as
`completionError` / `completionErrorAt` and the handler returns a value
(never an exception). Returns the new user document (if any) and the order
document as left behind by the handler. -/
def onOrderComplete (before after : OrderDoc) (configured : Option Int) (now : Int)
    (user : Option UserDoc) : Option UserDoc × OrderDoc :=
  if before.status == "completed" || after.status != "completed" then (user, after)
  else
    let washesRequired := effectiveWashesRequired configured
    match completeTxnResult after.userId washesRequired now after.paymentMethod user with
    | Except.error msg =>
        (user, { after with completionError := some msg, completionErrorAt := some now })
    | Except.ok (u2, _) => (some u2, after)

/-- Body of the `onOrderCancel` transaction over an existing user document:
bump `cancelledOrders`, restore one free-wash credit when the cancelled order
was a redemption, refresh `updatedAt` only. -/
def onOrderCancelTxn (isFreeWash : Bool) (now : Int) (u : UserDoc) : UserDoc :=
  { stats :=
      { u.stats with
        cancelledOrders := u.stats.cancelledOrders + 1
        freeWashesAvailable :=
          if isFreeWash then u.stats.freeWashesAvailable + 1
          else u.stats.freeWashesAvailable }
    updatedAt := now }

/-- How `onOrderCreate` disposed of the new order. -/
inductive CreateOutcome where
  | cancelledActiveOrder
  | cancelledNoFreeWash
  | processed
deriving Repr, DecidableEq

/-- The `onOrderCreate` trigger over an existing user document. An active
order for the same customer force-cancels the new order with no stat change;
a redemption without available credit force-cancels with no stat change (the
handler returns before the stats update); otherwise an eligible redemption
deducts one credit, and every surviving order bumps `totalOrders` and
refreshes `lastVisit` and `updatedAt`. -/
def onOrderCreate (hasOtherActiveOrder isFreeWash : Bool) (now : Int)
    (u : UserDoc) : UserDoc × CreateOutcome :=
  if hasOtherActiveOrder then (u, CreateOutcome.cancelledActiveOrder)
  else if isFreeWash then
    if u.stats.freeWashesAvailable > 0 then
      ({ stats :=
          { u.stats with
            freeWashesAvailable := u.stats.freeWashesAvailable - 1
            totalOrders := u.stats.totalOrders + 1
            lastVisit := now }
         updatedAt := now }, CreateOutcome.processed)
    else (u, CreateOutcome.cancelledNoFreeWash)
  else
    ({ stats := { u.stats with totalOrders := u.stats.totalOrders + 1, lastVisit := now }
       updatedAt := now }, CreateOutcome.processed)

/-- One customer-ledger operation: an order creation (with its environment
facts) or an order cancellation. -/
inductive LedgerOp where
  | create (hasOtherActiveOrder isFreeWash : Bool) (now : Int)
  | cancel (isFreeWash : Bool) (now : Int)
deriving Repr, DecidableEq

/-- Apply one ledger operation to a customer document. -/
def applyOp (u : UserDoc) : LedgerOp → UserDoc
  | LedgerOp.create h f now => (onOrderCreate h f now u).1
  | LedgerOp.cancel f now => onOrderCancelTxn f now u

/-- Apply a sequence of ledger operations left to right. -/
def applyOps (u : UserDoc) (ops : List LedgerOp) : UserDoc :=
  ops.foldl applyOp u

/- Helper lemmas on the eligibility test. -/

lemma shouldGetFreeWash_nonpos (c r : Int) (hr : r ≤ 0) :
    shouldGetFreeWash c r = false := by
  unfold shouldGetFreeWash
  rw [if_pos (Or.inr hr)]

lemma shouldGetFreeWash_pos_iff (c r : Int) (hr : 0 < r) :
    shouldGetFreeWash c r = true ↔ 0 < c ∧ c % r = 0 := by
  unfold shouldGetFreeWash
  rw [if_neg (by omega : ¬(r = 0 ∨ r ≤ 0))]
  simp only [Bool.and_eq_true, decide_eq_true_eq]
  constructor
  · rintro ⟨h1, h2⟩
    refine ⟨h1, ?_⟩
    rw [← Int.tmod_eq_emod (Int.le_of_lt h1) (Int.le_of_lt hr)]
    exact h2
  · rintro ⟨h1, h2⟩
    refine ⟨h1, ?_⟩
    rw [Int.tmod_eq_emod (Int.le_of_lt h1) (Int.le_of_lt hr)]
    exact h2

/-- C8: `shouldGetFreeWash` returns false for a nonpositive threshold, and for a
positive threshold returns true exactly when the completed count is positive and
divisible by the threshold; in particular (6,6) is true, (7,6) false, (12,6)
true and (x,0) false. -/
theorem shouldGetFreeWash_spec (c r : Int) :
    (r ≤ 0 → shouldGetFreeWash c r = false) ∧
    (0 < r → (shouldGetFreeWash c r = true ↔ 0 < c ∧ c % r = 0)) ∧
    shouldGetFreeWash 6 6 = true ∧ shouldGetFreeWash 7 6 = false ∧
    shouldGetFreeWash 12 6 = true ∧ shouldGetFreeWash c 0 = false := by
  refine ⟨fun hr => shouldGetFreeWash_nonpos c r hr,
    fun hr => shouldGetFreeWash_pos_iff c r hr, by decide, by decide, by decide,
    shouldGetFreeWash_nonpos c 0 (le_refl 0)⟩

/-- Witness for C8 at concrete inputs. -/
theorem shouldGetFreeWash_spec_witness :
    shouldGetFreeWash 5 0 = false ∧
    (shouldGetFreeWash 6 6 = true ↔ 0 < (6 : Int) ∧ (6 : Int) % 6 = 0) :=
  ⟨(shouldGetFreeWash_spec 5 0).1 (by decide), (shouldGetFreeWash_spec 6 6).2.1 (by decide)⟩

/- Helper: when the completion guard passes over an existing user, the handler
is exactly the transaction. -/

lemma onOrderComplete_fires (b a : OrderDoc) (cfg : Option Int) (now : Int) (u : UserDoc)
    (hb : b.status ≠ "completed") (ha : a.status = "completed") :
    onOrderComplete b a cfg now (some u)
      = (some (onOrderCompleteTxn (effectiveWashesRequired cfg) now a.paymentMethod u).1, a) := by
  unfold onOrderComplete
  rw [if_neg]
  · rfl
  · simp [hb, ha]

/-- C1: completing a non-redemption order over an existing customer bumps
`completedOrders` by exactly 1, and bumps `freeWashesAvailable` by exactly 1
iff the new completed count is positive and divisible by the (positive)
washes-required threshold, leaving it unchanged otherwise. -/
theorem onOrderComplete_paid_spec (b a : OrderDoc) (cfg : Option Int) (now : Int) (u : UserDoc)
    (hb : b.status ≠ "completed") (ha : a.status = "completed")
    (hpm : a.paymentMethod ≠ "redeemed")
    (hw : 0 < effectiveWashesRequired cfg) :
    ∃ u2 : UserDoc, (onOrderComplete b a cfg now (some u)).1 = some u2 ∧
      u2.stats.completedOrders = u.stats.completedOrders + 1 ∧
      (u2.stats.freeWashesAvailable = u.stats.freeWashesAvailable + 1 ↔
        (0 < u.stats.completedOrders + 1 ∧
          (u.stats.completedOrders + 1) % effectiveWashesRequired cfg = 0)) ∧
      (¬(0 < u.stats.completedOrders + 1 ∧
          (u.stats.completedOrders + 1) % effectiveWashesRequired cfg = 0) →
        u2.stats.freeWashesAvailable = u.stats.freeWashesAvailable) := by
  rw [onOrderComplete_fires b a cfg now u hb ha]
  refine ⟨_, rfl, ?_⟩
  have hpmb : (a.paymentMethod == "redeemed") = false := by
    simpa [beq_iff_eq] using hpm
  unfold onOrderCompleteTxn
  simp only [hpmb, Bool.false_eq_true, if_false]
  refine ⟨by trivial, ?_, ?_⟩
  · by_cases hE : shouldGetFreeWash (u.stats.completedOrders + 1) (effectiveWashesRequired cfg) = true
    · rw [← shouldGetFreeWash_pos_iff _ _ hw]
      simp [hE]
    · rw [← shouldGetFreeWash_pos_iff _ _ hw]
      simp only [hE]
      rw [if_neg (by simpa using hE)]
      constructor
      · intro h
        omega
      · intro h
        exact absurd h (by simpa using hE)
  · intro h
    rw [if_neg]
    intro hE
    exact h ((shouldGetFreeWash_pos_iff _ _ hw).mp hE)

/-- Witness for C1: a customer at 5 paid completions reaches 6 and earns a credit. -/
theorem onOrderComplete_paid_spec_witness :
    ∃ u2 : UserDoc,
      (onOrderComplete
        { status := "pending", paymentMethod := "cash", isFreeWash := false, userId := "AAA111",
          completionError := none, completionErrorAt := none }
        { status := "completed", paymentMethod := "cash", isFreeWash := false, userId := "AAA111",
          completionError := none, completionErrorAt := none }
        none 7
        (some { stats := { totalOrders := 5, completedOrders := 5, cancelledOrders := 0,
                           freeWashesAvailable := 0, lastVisit := 0 }, updatedAt := 0 })).1
        = some u2 ∧
      u2.stats.completedOrders = 5 + 1 ∧
      (u2.stats.freeWashesAvailable = 0 + 1 ↔
        (0 < (5 : Int) + 1 ∧ ((5 : Int) + 1) % effectiveWashesRequired none = 0)) ∧
      (¬(0 < (5 : Int) + 1 ∧ ((5 : Int) + 1) % effectiveWashesRequired none = 0) →
        u2.stats.freeWashesAvailable = 0) :=
  onOrderComplete_paid_spec _ _ none 7 _ (by decide) (by decide) (by decide) (by decide)

/-- C2: completing a redemption order over an existing customer leaves
`completedOrders` and `freeWashesAvailable` (and the other counters) unchanged:
the resulting document differs only in `lastVisit` and `updatedAt`, and the
order record is not modified. -/
theorem onOrderComplete_redeemed_frame (b a : OrderDoc) (cfg : Option Int) (now : Int)
    (u : UserDoc) (hb : b.status ≠ "completed") (ha : a.status = "completed")
    (hpm : a.paymentMethod = "redeemed") :
    (onOrderComplete b a cfg now (some u)).1
      = some { stats := { u.stats with lastVisit := now }, updatedAt := now } ∧
    (onOrderComplete b a cfg now (some u)).2 = a := by
  rw [onOrderComplete_fires b a cfg now u hb ha]
  refine ⟨?_, rfl⟩
  have hpmb : (a.paymentMethod == "redeemed") = true := by
    simpa [beq_iff_eq] using hpm
  unfold onOrderCompleteTxn
  simp [hpmb]

/-- Witness for C2 at a concrete redemption completion. -/
theorem onOrderComplete_redeemed_frame_witness :
    (onOrderComplete
      { status := "in_progress", paymentMethod := "redeemed", isFreeWash := true,
        userId := "BBB222", completionError := none, completionErrorAt := none }
      { status := "completed", paymentMethod := "redeemed", isFreeWash := true,
        userId := "BBB222", completionError := none, completionErrorAt := none }
      (some 6) 11
      (some { stats := { totalOrders := 9, completedOrders := 4, cancelledOrders := 1,
                         freeWashesAvailable := 2, lastVisit := 3 }, updatedAt := 3 })).1
      = some { stats := { totalOrders := 9, completedOrders := 4, cancelledOrders := 1,
                          freeWashesAvailable := 2, lastVisit := 11 }, updatedAt := 11 } ∧
    (onOrderComplete
      { status := "in_progress", paymentMethod := "redeemed", isFreeWash := true,
        userId := "BBB222", completionError := none, completionErrorAt := none }
      { status := "completed", paymentMethod := "redeemed", isFreeWash := true,
        userId := "BBB222", completionError := none, completionErrorAt := none }
      (some 6) 11
      (some { stats := { totalOrders := 9, completedOrders := 4, cancelledOrders := 1,
                         freeWashesAvailable := 2, lastVisit := 3 }, updatedAt := 3 })).2
      = { status := "completed", paymentMethod := "redeemed", isFreeWash := true,
          userId := "BBB222", completionError := none, completionErrorAt := none } :=
  onOrderComplete_redeemed_frame _ _ (some 6) 11 _ (by decide) (by decide) (by decide)

/-- C3: cancelling over an existing customer bumps `cancelledOrders` by exactly
1; a redemption cancellation restores exactly one free-wash credit, a
non-redemption cancellation leaves the credit balance unchanged. -/
theorem onOrderCancel_spec (f : Bool) (now : Int) (u : UserDoc) :
    (onOrderCancelTxn f now u).stats.cancelledOrders = u.stats.cancelledOrders + 1 ∧
    (f = true →
      (onOrderCancelTxn f now u).stats.freeWashesAvailable
        = u.stats.freeWashesAvailable + 1) ∧
    (f = false →
      (onOrderCancelTxn f now u).stats.freeWashesAvailable
        = u.stats.freeWashesAvailable) := by
  cases f <;> simp [onOrderCancelTxn]

/-- Witness for C3 covering both values of the redemption flag. -/
theorem onOrderCancel_spec_witness :
    (onOrderCancelTxn true 5
        { stats := { totalOrders := 2, completedOrders := 1, cancelledOrders := 0,
                     freeWashesAvailable := 1, lastVisit := 0 },
          updatedAt := 0 }).stats.freeWashesAvailable = 1 + 1 ∧
    (onOrderCancelTxn false 5
        { stats := { totalOrders := 2, completedOrders := 1, cancelledOrders := 0,
                     freeWashesAvailable := 1, lastVisit := 0 },
          updatedAt := 0 }).stats.freeWashesAvailable = 1 :=
  ⟨(onOrderCancel_spec true 5 _).2.1 rfl, (onOrderCancel_spec false 5 _).2.2 rfl⟩

/-- C4: the status-edge guard makes the completion handler a no-op whenever the
before-status is already completed or the after-status is not completed; hence
delivering a (pending, completed) transition and then redelivering it with the
before-status now completed leaves exactly the state of the single delivery. -/
theorem onOrderComplete_idempotent (b a a2 : OrderDoc) (cfg cfg2 : Option Int)
    (n n2 : Int) (user : Option UserDoc)
    (hb : b.status = "pending") (ha : a.status = "completed") (ha2 : a2.status = "completed") :
    (onOrderComplete a a2 cfg2 n2 (onOrderComplete b a cfg n user).1).1
      = (onOrderComplete b a cfg n user).1 ∧
    (∀ (b3 a3 : OrderDoc) (cfg3 : Option Int) (n3 : Int) (us : Option UserDoc),
      b3.status = "completed" ∨ a3.status ≠ "completed" →
        (onOrderComplete b3 a3 cfg3 n3 us).1 = us) := by
  have guard : ∀ (b3 a3 : OrderDoc) (cfg3 : Option Int) (n3 : Int) (us : Option UserDoc),
      b3.status = "completed" ∨ a3.status ≠ "completed" →
        (onOrderComplete b3 a3 cfg3 n3 us).1 = us := by
    intro b3 a3 cfg3 n3 us h
    unfold onOrderComplete
    rw [if_pos]
    rcases h with h | h <;> simp [h]
  exact ⟨guard a a2 cfg2 n2 _ (Or.inl ha), guard⟩

/-- Witness for C4 at a concrete duplicate delivery. -/
theorem onOrderComplete_idempotent_witness :
    (onOrderComplete
      { status := "completed", paymentMethod := "cash", isFreeWash := false, userId := "CCC333",
        completionError := none, completionErrorAt := none }
      { status := "completed", paymentMethod := "cash", isFreeWash := false, userId := "CCC333",
        completionError := none, completionErrorAt := none }
      (some 6) 2
      ((onOrderComplete
        { status := "pending", paymentMethod := "cash", isFreeWash := false, userId := "CCC333",
          completionError := none, completionErrorAt := none }
        { status := "completed", paymentMethod := "cash", isFreeWash := false, userId := "CCC333",
          completionError := none, completionErrorAt := none }
        (some 6) 1
        (some { stats := { totalOrders := 1, completedOrders := 0, cancelledOrders := 0,
                           freeWashesAvailable := 0, lastVisit := 0 }, updatedAt := 0 })).1)).1
      = (onOrderComplete
        { status := "pending", paymentMethod := "cash", isFreeWash := false, userId := "CCC333",
          completionError := none, completionErrorAt := none }
        { status := "completed", paymentMethod := "cash", isFreeWash := false, userId := "CCC333",
          completionError := none, completionErrorAt := none }
        (some 6) 1
        (some { stats := { totalOrders := 1, completedOrders := 0, cancelledOrders := 0,
                           freeWashesAvailable := 0, lastVisit := 0 }, updatedAt := 0 })).1 :=
  (onOrderComplete_idempotent
    { status := "pending", paymentMethod := "cash", isFreeWash := false, userId := "CCC333",
      completionError := none, completionErrorAt := none }
    { status := "completed", paymentMethod := "cash", isFreeWash := false, userId := "CCC333",
      completionError := none, completionErrorAt := none }
    { status := "completed", paymentMethod := "cash", isFreeWash := false, userId := "CCC333",
      completionError := none, completionErrorAt := none }
    (some 6) (some 6) 1 2
    (some { stats := { totalOrders := 1, completedOrders := 0, cancelledOrders := 0,
                       freeWashesAvailable := 0, lastVisit := 0 }, updatedAt := 0 })
    rfl rfl rfl).1

/-- C5 counterexample: a redemption order force-cancelled because the customer
has no free washes available leaves `totalOrders` and `lastVisit` untouched —
the handler returns before the stats update, contradicting the claim that such
an order still bumps `totalOrders`. -/
theorem onOrderCreate_noFreeWash_cex :
    (onOrderCreate false true 99
        { stats := { totalOrders := 3, completedOrders := 0, cancelledOrders := 0,
                     freeWashesAvailable := 0, lastVisit := 0 },
          updatedAt := 0 }).2 = CreateOutcome.cancelledNoFreeWash ∧
    (onOrderCreate false true 99
        { stats := { totalOrders := 3, completedOrders := 0, cancelledOrders := 0,
                     freeWashesAvailable := 0, lastVisit := 0 },
          updatedAt := 0 }).1.stats.totalOrders = 3 ∧
    (onOrderCreate false true 99
        { stats := { totalOrders := 3, completedOrders := 0, cancelledOrders := 0,
                     freeWashesAvailable := 0, lastVisit := 0 },
          updatedAt := 0 }).1.stats.lastVisit = 0 := by
  decide

/-- C5 (amended): `totalOrders` is bumped by 1 and `lastVisit` refreshed exactly
for creations the handler fully processes; an order force-cancelled for either
reason (active order exists, or no free washes available) leaves the customer
document unchanged. -/
theorem onOrderCreate_stats_spec (h f : Bool) (now : Int) (u : UserDoc) :
    ((onOrderCreate h f now u).2 = CreateOutcome.processed →
      (onOrderCreate h f now u).1.stats.totalOrders = u.stats.totalOrders + 1 ∧
      (onOrderCreate h f now u).1.stats.lastVisit = now) ∧
    ((onOrderCreate h f now u).2 ≠ CreateOutcome.processed →
      (onOrderCreate h f now u).1 = u) := by
  unfold onOrderCreate
  cases h <;> cases f <;> simp <;> split_ifs <;> simp

/-- Witness for C5 (amended): a fully processed creation and a force-cancelled one. -/
theorem onOrderCreate_stats_spec_witness :
    (onOrderCreate false false 4
        { stats := { totalOrders := 7, completedOrders := 2, cancelledOrders := 0,
                     freeWashesAvailable := 0, lastVisit := 1 },
          updatedAt := 1 }).1.stats.totalOrders = 7 + 1 ∧
    (onOrderCreate true false 4
        { stats := { totalOrders := 7, completedOrders := 2, cancelledOrders := 0,
                     freeWashesAvailable := 0, lastVisit := 1 },
          updatedAt := 1 }).1
      = { stats := { totalOrders := 7, completedOrders := 2, cancelledOrders := 0,
                     freeWashesAvailable := 0, lastVisit := 1 },
          updatedAt := 1 } :=
  ⟨((onOrderCreate_stats_spec false false 4 _).1 (by decide)).1,
   (onOrderCreate_stats_spec true false 4 _).2 (by decide)⟩

/-- C6 counterexample: with `washesRequiredForFree` configured as 0, completing
a paid order still increments `freeWashesAvailable` — the handler falls back to
the default threshold 6 instead of disabling earning. -/
theorem onOrderComplete_zeroConfig_cex :
    (onOrderComplete
        { status := "pending", paymentMethod := "cash", isFreeWash := false, userId := "DDD444",
          completionError := none, completionErrorAt := none }
        { status := "completed", paymentMethod := "cash", isFreeWash := false, userId := "DDD444",
          completionError := none, completionErrorAt := none }
        (some 0) 7
        (some { stats := { totalOrders := 5, completedOrders := 5, cancelledOrders := 0,
                           freeWashesAvailable := 0, lastVisit := 0 }, updatedAt := 0 })).1
      = some { stats := { totalOrders := 5, completedOrders := 6, cancelledOrders := 0,
                          freeWashesAvailable := 1, lastVisit := 7 }, updatedAt := 7 } := by
  decide

/-- C6 (amended): a configured 0 (or unset) `washesRequiredForFree` makes the
completion handler fall back to the default threshold 6 — earning is not
disabled — while `shouldGetFreeWash` itself is never eligible for a nonpositive
threshold, so no division-by-zero semantics arise. -/
theorem effectiveWashesRequired_spec (now : Int) (pm : String) (u : UserDoc) :
    effectiveWashesRequired (some 0) = 6 ∧ effectiveWashesRequired none = 6 ∧
    onOrderCompleteTxn (effectiveWashesRequired (some 0)) now pm u
      = onOrderCompleteTxn 6 now pm u ∧
    (∀ c r : Int, r ≤ 0 → shouldGetFreeWash c r = false) :=
  ⟨rfl, rfl, rfl, fun c r hr => shouldGetFreeWash_nonpos c r hr⟩

/-- Witness for C6 (amended) at a concrete nonpositive threshold. -/
theorem effectiveWashesRequired_spec_witness :
    shouldGetFreeWash 12 0 = false :=
  (effectiveWashesRequired_spec 0 "cash"
      { stats := { totalOrders := 0, completedOrders := 0, cancelledOrders := 0,
                   freeWashesAvailable := 0, lastVisit := 0 },
        updatedAt := 0 }).2.2.2 12 0 (by decide)

lemma applyOp_freeWashes_nonneg (u : UserDoc) (op : LedgerOp)
    (h : 0 ≤ u.stats.freeWashesAvailable) :
    0 ≤ (applyOp u op).stats.freeWashesAvailable := by
  cases op with
  | create hA f now =>
    unfold applyOp onOrderCreate
    cases hA <;> cases f <;>
      first
        | simpa using h
        | (by_cases hpos : u.stats.freeWashesAvailable > 0 <;> simp [hpos] <;> omega)
  | cancel f now =>
    unfold applyOp onOrderCancelTxn
    cases f <;> simp <;> omega

/-- C7: starting from any customer document with a nonnegative free-wash
balance, any finite sequence of create and cancel operations leaves the balance
nonnegative: a redemption create decrements only after checking the balance is
positive, and a cancel only ever increments. -/
theorem freeWashes_nonneg_invariant (ops : List LedgerOp) (u : UserDoc)
    (h : 0 ≤ u.stats.freeWashesAvailable) :
    0 ≤ (applyOps u ops).stats.freeWashesAvailable := by
  induction ops generalizing u with
  | nil => simpa [applyOps] using h
  | cons op ops ih =>
    simpa [applyOps, List.foldl_cons] using ih (applyOp u op) (applyOp_freeWashes_nonneg u op h)

/-- Witness for C7 on a concrete operation sequence. -/
theorem freeWashes_nonneg_invariant_witness :
    0 ≤ (applyOps
        { stats := { totalOrders := 0, completedOrders := 0, cancelledOrders := 0,
                     freeWashesAvailable := 1, lastVisit := 0 },
          updatedAt := 0 }
        [LedgerOp.create false true 1, LedgerOp.create false true 2,
         LedgerOp.cancel true 3, LedgerOp.cancel false 4]).stats.freeWashesAvailable :=
  freeWashes_nonneg_invariant
    [LedgerOp.create false true 1, LedgerOp.create false true 2,
     LedgerOp.cancel true 3, LedgerOp.cancel false 4]
    { stats := { totalOrders := 0, completedOrders := 0, cancelledOrders := 0,
                 freeWashesAvailable := 1, lastVisit := 0 },
      updatedAt := 0 }
    (by decide)

/-- C9: when the customer record is missing, the completion transaction aborts
with no customer-stat delta (the user store is left as it was), the error is
recorded on the order as `completionError` with a `completionErrorAt`
timestamp, and the handler returns a value rather than propagating the error. -/
theorem onOrderComplete_missingUser (b a : OrderDoc) (cfg : Option Int) (now : Int)
    (hb : b.status ≠ "completed") (ha : a.status = "completed") :
    (onOrderComplete b a cfg now none).1 = none ∧
    (onOrderComplete b a cfg now none).2
      = { a with completionError := some ("Usuario " ++ a.userId ++ " no encontrado"),
                 completionErrorAt := some now } := by
  unfold onOrderComplete
  rw [if_neg (by simp [hb, ha])]
  exact ⟨rfl, rfl⟩

/-- Witness for C9 at a concrete missing-customer completion. -/
theorem onOrderComplete_missingUser_witness :
    (onOrderComplete
        { status := "in_progress", paymentMethod := "cash", isFreeWash := false, userId := "EEE555",
          completionError := none, completionErrorAt := none }
        { status := "completed", paymentMethod := "cash", isFreeWash := false, userId := "EEE555",
          completionError := none, completionErrorAt := none }
        none 13 none).1 = none ∧
    (onOrderComplete
        { status := "in_progress", paymentMethod := "cash", isFreeWash := false, userId := "EEE555",
          completionError := none, completionErrorAt := none }
        { status := "completed", paymentMethod := "cash", isFreeWash := false, userId := "EEE555",
          completionError := none, completionErrorAt := none }
        none 13 none).2
      = { status := "completed", paymentMethod := "cash", isFreeWash := false, userId := "EEE555",
          completionError := some ("Usuario " ++ "EEE555" ++ " no encontrado"),
          completionErrorAt := some 13 } :=
  onOrderComplete_missingUser _ _ none 13 (by decide) (by decide)

/-- A worker or service reference embedded in an order (`id` plus optional
display name); an absent id is modelled as the empty string, which JS also
treats as falsy. -/
structure ARef where
  id : String
  name : Option String
deriving Repr, DecidableEq

/-- An order as seen by the aggregation utilities. -/
structure AOrder where
  status : String
  worker : Option ARef
  service : Option ARef
deriving Repr, DecidableEq

/-- `x.name || "Sin nombre"`: a missing or empty name falls back to the default. -/
def jsNameOrDefault : Option String → String
  | none => "Sin nombre"
  | some s => if s = "" then "Sin nombre" else s

/-- One entry of the group-by-id count map (the worker variant calls the count
field `ordersCompleted`; both variants share this shape). -/
structure Tally where
  id : String
  name : String
  count : Int
deriving Repr, DecidableEq

/-- Increment the count for `id` in the accumulated map, inserting a fresh
entry (count 1, first-seen name) when absent; insertion order is kept. -/
def bumpTally (acc : List Tally) (id nm : String) : List Tally :=
  if acc.any (fun t => t.id == id) then
    acc.map (fun t => if t.id == id then { t with count := t.count + 1 } else t)
  else acc ++ [{ id := id, name := nm, count := 1 }]

/-- `findTopWorker` counts an order only when it carries a (truthy) worker id
and its status is completed. -/
def countsForTopWorker (o : AOrder) : Bool :=
  match o.worker with
  | none => false
  | some w => w.id != "" && o.status == "completed"

/-- One `forEach` step of `findTopWorker`: bump the worker tally when the order
has a worker id and is completed. -/
def tallyWorkerStep (acc : List Tally) (o : AOrder) : List Tally :=
  match o.worker with
  | none => acc
  | some w =>
    if w.id != "" && o.status == "completed" then bumpTally acc w.id (jsNameOrDefault w.name)
    else acc

/-- The worker count map built by `findTopWorker`. -/
def tallyWorkers (orders : List AOrder) : List Tally :=
  orders.foldl tallyWorkerStep []

/-- One `forEach` step of `findMostPopularService`: bump the service tally when
the order has a service id — the status is not consulted. -/
def tallyServiceStep (acc : List Tally) (o : AOrder) : List Tally :=
  match o.service with
  | none => acc
  | some s => if s.id != "" then bumpTally acc s.id (jsNameOrDefault s.name) else acc

/-- The service count map built by `findMostPopularService`. -/
def tallyServices (orders : List AOrder) : List Tally :=
  orders.foldl tallyServiceStep []

/-- `Object.values(...).reduce` with no seed: fold the tail against the head,
replacing only on a strictly greater count (first-seen max wins ties). -/
def maxByCount (head : Tally) (rest : List Tally) : Tally :=
  rest.foldl (fun best t => if t.count > best.count then t else best) head

/-- `findTopWorker` from `utils/calculations`. -/
def findTopWorker (orders : List AOrder) : Option Tally :=
  if orders.isEmpty then none
  else
    match tallyWorkers orders with
    | [] => none
    | t :: ts => some (maxByCount t ts)

/-- `findMostPopularService` from `utils/calculations`. -/
def findMostPopularService (orders : List AOrder) : Option Tally :=
  if orders.isEmpty then none
  else
    match tallyServices orders with
    | [] => none
    | t :: ts => some (maxByCount t ts)

lemma tallyWorkerStep_skip (acc : List Tally) (o : AOrder)
    (h : countsForTopWorker o = false) : tallyWorkerStep acc o = acc := by
  cases hw : o.worker with
  | none => simp [tallyWorkerStep, hw]
  | some w =>
    have h2 : (w.id != "" && o.status == "completed") = false := by
      simpa [countsForTopWorker, hw] using h
    simp [tallyWorkerStep, hw, h2]

lemma tallyWorkers_foldl_filter (os : List AOrder) (acc : List Tally) :
    os.foldl tallyWorkerStep acc = (os.filter countsForTopWorker).foldl tallyWorkerStep acc := by
  induction os generalizing acc with
  | nil => rfl
  | cons o os ih =>
    by_cases hc : countsForTopWorker o
    · rw [List.foldl_cons, List.filter_cons_of_pos hc, List.foldl_cons]
      exact ih _
    · have hc2 : countsForTopWorker o = false := by simpa using hc
      rw [List.foldl_cons, tallyWorkerStep_skip acc o hc2, List.filter_cons_of_neg hc]
      exact ih _

lemma tallyWorkers_filter (os : List AOrder) :
    tallyWorkers os = tallyWorkers (os.filter countsForTopWorker) := by
  unfold tallyWorkers
  exact tallyWorkers_foldl_filter os []

lemma findTopWorker_filter (os : List AOrder) :
    findTopWorker os = findTopWorker (os.filter countsForTopWorker) := by
  cases os with
  | nil => rfl
  | cons o os2 =>
    have htally : tallyWorkers (o :: os2)
        = tallyWorkers ((o :: os2).filter countsForTopWorker) :=
      tallyWorkers_filter (o :: os2)
    cases hft : (o :: os2).filter countsForTopWorker with
    | nil =>
      have h0 : tallyWorkers (o :: os2) = [] := by
        rw [htally, hft]
        rfl
      simp [findTopWorker, h0]
    | cons t ts =>
      have h1 : tallyWorkers (o :: os2) = tallyWorkers (t :: ts) := by
        rw [htally, hft]
      simp [findTopWorker, h1]

lemma tallyServiceStep_status (acc : List Tally) (o : AOrder) (s : String) :
    tallyServiceStep acc { o with status := s } = tallyServiceStep acc o := rfl

lemma tallyServices_status (os : List AOrder) (s : String) (acc : List Tally) :
    (os.map (fun o => { o with status := s })).foldl tallyServiceStep acc
      = os.foldl tallyServiceStep acc := by
  induction os generalizing acc with
  | nil => rfl
  | cons o os ih =>
    simp only [List.map_cons, List.foldl_cons, tallyServiceStep_status]
    exact ih _

lemma findMostPopularService_status (os : List AOrder) (s : String) :
    findMostPopularService (os.map (fun o => { o with status := s }))
      = findMostPopularService os := by
  unfold findMostPopularService
  have h1 : tallyServices (os.map (fun o => { o with status := s })) = tallyServices os :=
    tallyServices_status os s []
  rw [h1]
  cases os <;> simp

/-- C10: `findTopWorker` counts only orders with a worker id and completed
status (it agrees with itself on the filtered list), so a non-empty list with
no such order yields no top worker — while `findMostPopularService` is entirely
insensitive to order status. -/
theorem findTopWorker_only_completed (orders : List AOrder) (s : String)
    (hne : orders ≠ []) (hnone : ∀ o ∈ orders, countsForTopWorker o = false) :
    findTopWorker orders = none ∧
    (∀ os : List AOrder, findTopWorker os = findTopWorker (os.filter countsForTopWorker)) ∧
    (∀ os : List AOrder,
      findMostPopularService (os.map (fun o => { o with status := s }))
        = findMostPopularService os) := by
  refine ⟨?_, findTopWorker_filter, fun os => findMostPopularService_status os s⟩
  rw [findTopWorker_filter]
  have hfil : orders.filter countsForTopWorker = [] := by
    simp only [List.filter_eq_nil_iff]
    intro o ho
    simp [hnone o ho]
  rw [hfil]
  rfl

/-- Witness for C10: a non-empty list holding one pending order with an
assigned worker yields no top worker. -/
theorem findTopWorker_only_completed_witness :
    findTopWorker
        [{ status := "pending", worker := some { id := "w1", name := some "Ana" },
           service := some { id := "s1", name := some "Basico" } }] = none :=
  (findTopWorker_only_completed
      [{ status := "pending", worker := some { id := "w1", name := some "Ana" },
         service := some { id := "s1", name := some "Basico" } }]
      "pending" (by decide) (by decide)).1

end Lavadero
